import Mathlib

/-!
# Verification of `sparklines` (talwrii/sparklines, `sparklines/sparklines.py`)

A shallow embedding of the module's functions, followed by theorems settling
the frozen claims about them.

Modelling conventions:

* Python numbers (ints and floats) are embedded as exact rationals `ℚ`; a
  possibly-missing sample (`None` in the source) is an `Option ℚ`.
* Fallible code returns `Except String α`; the string names the Python
  exception the source raises on that path (Python 3 semantics: comparing
  `None` with a number raises `TypeError`, `min`/`max` of an empty sequence
  raise `ValueError`, reading a never-assigned local raises
  `UnboundLocalError`, and division by zero raises `ZeroDivisionError`).
* The external `termcolor.colored` capability is an explicit function
  parameter `colored : String → Char → String`, and its availability flag
  `HAVE_TERMCOLOR` an explicit `Bool` parameter, as the module only probes it
  with `HAVE_TERMCOLOR and emph`.
* Emphasis rules are embedded after parsing, as `(color, op, value)` triples
  (source: `re.match('(\w+)\:(eq|gt|ge|lt|le)\:(.+)', em).groups()`); the
  comparator semantics of `_get_color` is embedded faithfully.
* `warnings.warn` (`_check_negatives`) is a diagnostic side channel with no
  effect on the returned strings, so it is not part of the embedding.
-/

/-- `blocks = " ▁▂▃▄▅▆▇█"` (line 35): the nine-glyph alphabet, index 0 the
blank, index 8 the full block. Embedded as the list of its characters. -/
def blocks : List Char := [' ', '▁', '▂', '▃', '▄', '▅', '▆', '▇', '█']

/-- `_rescale(x1, y1, x2, y2, x)` (lines 38-41), exactly as written in the
source: `(y2-y1)/(x2-x1)*x + (x2*y1 - x1-y2)/(x2-x1)`. (Note the second
numerator reads `x2*y1 - x1 - y2`; the docstring claims the function
evaluates the straight line through `(x1, y1)` and `(x2, y2)`, which would
need `x2*y1 - x1*y2`.) -/
def _rescale (x1 y1 x2 y2 x : ℚ) : ℚ :=
  (y2 - y1) / (x2 - x1) * x + (x2 * y1 - x1 - y2) / (x2 - x1)

/-- Python 3 `round` on our exact-rational model of floats: round half to
even (banker's rounding), as used at line 107 via `future.builtins.round`. -/
def round_half_even (q : ℚ) : ℤ :=
  if q - ⌊q⌋ < 1/2 then ⌊q⌋
  else if 1/2 < q - ⌊q⌋ then ⌊q⌋ + 1
  else if ⌊q⌋ % 2 = 0 then ⌊q⌋ else ⌊q⌋ + 1

/-- `round(v) or 1` (line 107): a rounded value of `0` is falsy, so it is
replaced by `1`; any other integer is kept. -/
def py_round_or_1 (v : ℚ) : ℤ :=
  if round_half_even v = 0 then 1 else round_half_even v

/-- Evaluation-ordered effectful map: the embedding of a Python list
comprehension or `for` loop whose body may raise, stopping at the first
raised exception. -/
def mapE (f : α → Except String β) : List α → Except String (List β)
  | [] => Except.ok []
  | x :: xs =>
    match f x with
    | Except.error e => Except.error e
    | Except.ok y =>
      match mapE f xs with
      | Except.error e => Except.error e
      | Except.ok ys => Except.ok (y :: ys)

/-- `min(filtered) if minimum is None else minimum` (line 82): an explicit
bound wins; otherwise Python's `min` of the non-missing samples, which
raises `ValueError` on an empty sequence. -/
def py_min_bound (bound : Option ℚ) (filtered : List ℚ) : Except String ℚ :=
  match bound with
  | some m => Except.ok m
  | none =>
    match filtered.min? with
    | some m => Except.ok m
    | none => Except.error "ValueError: min() arg is an empty sequence"

/-- `max(filtered) if maximum is None else maximum` (line 83). -/
def py_max_bound (bound : Option ℚ) (filtered : List ℚ) : Except String ℚ :=
  match bound with
  | some m => Except.ok m
  | none =>
    match filtered.max? with
    | some m => Except.ok m
    | none => Except.error "ValueError: max() arg is an empty sequence"

/-- `max(min(n, max_), min_)` (line 87), applied to every element of the
input list with no guard for missing samples: under Python 3, `min`/`max`
compare `None` with a number and raise `TypeError`. -/
def py_clamp (min_ max_ : ℚ) : Option ℚ → Except String ℚ
  | some x => Except.ok (max (min x max_) min_)
  | none => Except.error "TypeError: comparison of NoneType and number"

/-- Lines 100-106: when `num_lines > 1`, `m = min(values)` (all entries are
present at this point, since the clamp at line 87 would already have raised
on a missing one, so the `if n is not None` filter of line 101 keeps
everything) and every value is passed through
`_rescale(m, m, max_, num_lines * max_, v)`. Python raises
`ZeroDivisionError` when `max_ - m == 0`. -/
def second_rescale (num_lines : ℕ) (max_ : ℚ) (values : List ℚ) :
    Except String (List ℚ) :=
  match values.min? with
  | none => Except.error "ValueError: min() arg is an empty sequence"
  | some m =>
    if max_ - m = 0 then Except.error "ZeroDivisionError: float division by zero"
    else Except.ok (values.map (fun v => _rescale m m max_ ((num_lines : ℚ) * max_) v))

/-- `scale_values(numbers, num_lines, minimum, maximum)` (lines 77-108).
The steps in source order: resolve the effective bounds (lines 81-83),
`dv = max_ - min_` (line 84), clamp every sample (line 87, raising on a
missing sample under Python 3), then the range dispatch: `dv == 0` maps
every (clamped) entry to the integer `4 * num_lines` (lines 89-90);
`dv > 0` applies the linear map of lines 94-98 with
`num_blocks = len(blocks) - 1`, optionally the second `_rescale`
(lines 100-106), and `round(v) or 1` (line 107); and for `dv < 0` neither
branch assigns `values`, so `return values` (line 108) raises
`UnboundLocalError`. -/
def scale_values (numbers : List (Option ℚ)) (num_lines : ℕ)
    (minimum maximum : Option ℚ) : Except String (List (Option ℤ)) :=
  let filtered := numbers.filterMap id
  match py_min_bound minimum filtered with
  | Except.error e => Except.error e
  | Except.ok min_ =>
    match py_max_bound maximum filtered with
    | Except.error e => Except.error e
    | Except.ok max_ =>
      let dv := max_ - min_
      match mapE (py_clamp min_ max_) numbers with
      | Except.error e => Except.error e
      | Except.ok clamped =>
        if dv = 0 then
          Except.ok (clamped.map (fun _ => some ((4 * num_lines : ℕ) : ℤ)))
        else if 0 < dv then
          let num_blocks : ℚ := (blocks.length : ℚ) - 1
          let values := clamped.map (fun x =>
            (num_blocks - 1) / dv * x + (max_ * 1 - min_ * num_blocks) / dv)
          match (if 1 < num_lines then second_rescale num_lines max_ values
                 else Except.ok values) with
          | Except.error e => Except.error e
          | Except.ok values2 =>
            Except.ok (values2.map (fun v => some (py_round_or_1 v)))
        else
          Except.error "UnboundLocalError: local variable 'values' referenced before assignment"

/-- One comparator of an emphasis rule: `eq|gt|ge|lt|le` as parsed by
`_get_color`'s regular expression (line 60). -/
inductive EmphOp
  | eq
  | gt
  | ge
  | lt
  | le
deriving DecidableEq

/-- One emphasis rule `color:op:value`, embedded after the regular-expression
parse of line 62 and the `float(value)` conversion of line 63. -/
structure EmphRule where
  color : String
  op : EmphOp
  value : ℚ

/-- The rule loop of `_get_color` (lines 61-74): the first matching rule's
color wins; a missing sample (`n` is `None`) compares equal to nothing under
`eq` and raises `TypeError` under the ordered comparators in Python 3; if no
rule matches, the default color `'white'` is returned. -/
def _get_color_go (n : Option ℚ) : List EmphRule → Except String (Option String)
  | [] => Except.ok (some "white")
  | r :: rest =>
    match n with
    | some x =>
      if r.op = EmphOp.eq ∧ x = r.value then Except.ok (some r.color)
      else if r.op = EmphOp.gt ∧ r.value < x then Except.ok (some r.color)
      else if r.op = EmphOp.ge ∧ r.value ≤ x then Except.ok (some r.color)
      else if r.op = EmphOp.lt ∧ x < r.value then Except.ok (some r.color)
      else if r.op = EmphOp.le ∧ x ≤ r.value then Except.ok (some r.color)
      else _get_color_go n rest
    | none =>
      if r.op = EmphOp.eq then _get_color_go n rest
      else Except.error "TypeError: comparison of NoneType and float"

/-- `_get_color(emph, n)` (lines 55-74): `None` emphasis yields no color
(line 57-58); otherwise the rule loop runs. -/
def _get_color (emph : Option (List EmphRule)) (n : Option ℚ) :
    Except String (Option String) :=
  match emph with
  | none => Except.ok none
  | some rules => _get_color_go n rules

/-- Python truthiness of the `emph` argument as used in
`HAVE_TERMCOLOR and emph` (line 144): `None` and the empty list are falsy. -/
def emphTruthy (emph : Option (List EmphRule)) : Bool :=
  match emph with
  | none => false
  | some l => !l.isEmpty

/-- `_render_column(value, num_lines)` (lines 156-161): for each row index
`i` below `num_lines`, the glyph at index `min(max(0, value - 8*i), 8)` of
`blocks`. A missing scaled value would raise `TypeError` at `value - 8*i`
(only reachable when `num_lines ≥ 1`). Each pixel is a one-character string,
as Python string indexing yields. -/
def _render_column (value : Option ℤ) (num_lines : ℕ) : Except String (List String) :=
  match value with
  | some v =>
    Except.ok ((List.range num_lines).map (fun i =>
      String.mk [blocks.getD (Int.toNat (min (max 0 (v - 8 * (i : ℤ))) 8)) ' ']))
  | none =>
    if num_lines = 0 then Except.ok []
    else Except.error "TypeError: unsupported operand type(s) for -: NoneType and int"

/-- `_color_string(color, string)` (lines 164-168): a falsy color (`None` or
the empty string) leaves the string unchanged; otherwise every character is
wrapped individually in the `colored` capability and the results joined. -/
def _color_string (colored : String → Char → String) (color : Option String)
    (s : String) : String :=
  match color with
  | none => s
  | some c => if c = "" then s else String.join (s.data.map (fun ch => colored c ch))

/-- `list_join(separator, lists)` (lines 171-179): extend with each list but
the last followed by one separator element, then extend with the last list
(nothing for an empty list of lists). -/
def list_join (separator : α) (lists : List (List α)) : List α :=
  (((lists.zip lists.tail).map (fun p => p.1 ++ [separator])).flatten) ++
    (match lists.getLast? with
     | none => []
     | some l => l)

/-- Python `zip(*ls)`: truncating transpose — row `i` collects the `i`-th
element of every list, for `i` below the shortest length; `zip()` of no
lists is empty. -/
def zipStar [Inhabited α] (ls : List (List α)) : List (List α) :=
  match ls.map List.length with
  | [] => []
  | len0 :: lens =>
    (List.range (lens.foldl min len0)).map (fun i => ls.map (fun l => l.getD i default))

/-- Python slice `l[i::k]` for `k ≥ 1`: every `k`-th element starting at
index `i`. -/
def sliceStep (l : List α) (i k : ℕ) : List α :=
  ((l.drop i).enum.filter (fun p => p.1 % k = 0)).map Prod.snd

/-- `batch(batch_size, items)` (lines 182-190): `None` gives one batch with
everything; otherwise the items are padded with `batch_size - 1` sentinels
(`none` here), the `batch_size` strided slices are zipped into groups, and
the sentinels are filtered back out. (For `batch_size = 0` the slice list
built over `range(0)` is empty and `zip()` yields no groups.) -/
def batch (batch_size : Option ℕ) (items : List α) : List (List α) :=
  match batch_size with
  | none => [items]
  | some k =>
    let padded : List (Option α) := items.map some ++ List.replicate (k - 1) none
    let groups := zipStar ((List.range k).map (fun i => sliceStep padded i k))
    groups.map (fun g => g.filterMap id)

/-- `transpose_array(array)` (lines 193-197): raise on inconsistent line
lengths (`set(map(len, array))` not a singleton), else the reversed
transpose. -/
def transpose_array (array : List (List String)) : Except String (List (List String)) :=
  if ((array.map List.length).dedup).length ≠ 1 then
    Except.error "Exception: Inconsistent line lengths"
  else Except.ok (zipStar array).reverse

/-- `sparklines(numbers, num_lines, emph, verbose, minimum, maximum, wrap)`
(lines 111-153). `verbose` is unused by the algorithm and omitted. In source
order: `assert num_lines > 0` (line 130), the empty-input special case
(lines 132-133), scaling (line 138), then per batch of
`zip(numbers, display_values)`: render each column, pick its color only when
the termcolor capability is available and `emph` is truthy (line 144), color
each pixel, transpose to rows and join each row to a string
(lines 140-150); finally the batches' row lists are joined with a single
`''` entry between consecutive batches (line 152). -/
def sparklines (colored : String → Char → String) (have_termcolor : Bool)
    (numbers : List (Option ℚ)) (num_lines : ℕ) (emph : Option (List EmphRule))
    (minimum maximum : Option ℚ) (wrap : Option ℕ) : Except String (List String) :=
  if 1 ≤ num_lines then
    if numbers.length = 0 then Except.ok [""]
    else
      match scale_values numbers num_lines minimum maximum with
      | Except.error e => Except.error e
      | Except.ok display_values =>
        match mapE (fun subgraph_pairs =>
            match mapE (fun p =>
                match _render_column p.2 num_lines with
                | Except.error e => Except.error e
                | Except.ok column =>
                  match (if have_termcolor && emphTruthy emph
                         then _get_color emph p.1 else Except.ok none) with
                  | Except.error e => Except.error e
                  | Except.ok color =>
                    Except.ok (column.map (fun pixel => _color_string colored color pixel)))
              subgraph_pairs with
            | Except.error e => Except.error e
            | Except.ok columns =>
              match transpose_array columns with
              | Except.error e => Except.error e
              | Except.ok subgraph_rows =>
                Except.ok (subgraph_rows.map (fun row => String.join row)))
          (batch wrap (numbers.zip display_values)) with
        | Except.error e => Except.error e
        | Except.ok subgraphs_lines => Except.ok (list_join "" subgraphs_lines)
  else Except.error "AssertionError: num_lines must be positive"

/-- The reference input of the module docstring and demo:
`[3, 1, 4, 1, 5, 9, 2, 6]`. -/
def ref_numbers : List (Option ℚ) :=
  [some 3, some 1, some 4, some 1, some 5, some 9, some 2, some 6]

/-- A concrete stand-in for the external color capability, used to
instantiate closed statements; with no color selected it is never applied. -/
def plain_color_capability : String → Char → String :=
  fun _ c => String.mk [c]

/-- The clamp written in the spec's words (§4.2): `clamp(x, lo, hi)`,
the value forced into `[lo, hi]`. -/
def clamp_level (lo hi x : ℤ) : ℤ := min hi (max lo x)

/-- The column formula exactly as the claim states it (glyph at alphabet
index `clamp(scaled_value - 9*i, 0, 8)`), written from the spec's words to
compare against `_render_column`. -/
def claimed_level_pixel (v : ℤ) (i : ℕ) : String :=
  String.mk [blocks.getD (Int.toNat (clamp_level 0 8 (v - 9 * (i : ℤ)))) ' ']

set_option maxHeartbeats 2000000 in
/-- C1: for the input `[3, 1, 4, 1, 5, 9, 2, 6]` with `num_lines = 1`, no
explicit bounds and no wrap, scaling followed by rendering produces exactly
the one-row string `"▃▁▄▁▄█▂▅"`, for every color capability and
availability flag (no emphasis rules are given). -/
theorem C1_reference_sparkline (colored : String → Char → String) (htc : Bool) :
    sparklines colored htc ref_numbers 1 none none none none =
      Except.ok ["▃▁▄▁▄█▂▅"] := by
  cases htc <;> with_unfolding_all rfl

/-- C2 counterexample: with `wrap = 3` on the 8-sample reference sequence and
`num_lines = 1`, the result is five strings (the three batch blocks stacked
vertically with an empty string between consecutive blocks), not one row of
length 10: batches are not joined horizontally. -/
theorem C2_counterexample :
    sparklines plain_color_capability false ref_numbers 1 none none none (some 3) =
      Except.ok ["▃▁▄", "", "▁▄█", "", "▂▅"] ∧
    ¬ ((["▃▁▄", "", "▁▄█", "", "▂▅"] : List String).length = 1 ∧
       ∀ r ∈ (["▃▁▄", "", "▁▄█", "", "▂▅"] : List String), r.length = 10) := by
  refine ⟨by with_unfolding_all rfl, by decide⟩

/-- C2 amended: when a wrap width is given, the batches are rendered as
separate blocks and joined vertically: the output list is the concatenation
of the batches' row lists with one empty-string entry between consecutive
batches and none after the last; with `wrap = 3` on the 8-sample reference
sequence and `num_lines = 1` that is `list_join` of the three blocks
`▃▁▄`, `▁▄█`, `▂▅` (widths 3, 3, 2). -/
theorem C2_amended_vertical_join :
    sparklines plain_color_capability false ref_numbers 1 none none none (some 3) =
      Except.ok (list_join "" [["▃▁▄"], ["▁▄█"], ["▂▅"]]) := by
  with_unfolding_all rfl

/-- C3: a missing (`None`) sample does not render as a blank glyph: the
un-guarded clamp `max(min(n, max_), min_)` at line 87 compares `None` with a
number, which raises `TypeError` under Python 3, so both scaling and
rendering fail on `[1, None, 2]` instead of producing a space. (The
function's own docstring, lines 116-117, promises a blank character.) -/
theorem C3_missing_sample_raises :
    scale_values [some 1, none, some 2] 1 none none =
      Except.error "TypeError: comparison of NoneType and number" ∧
    sparklines plain_color_capability false [some 1, none, some 2] 1
        none none none none =
      Except.error "TypeError: comparison of NoneType and number" := by
  refine ⟨by with_unfolding_all rfl, by with_unfolding_all rfl⟩

/-- C4 counterexample: the column renderer steps by `8*i`, not `9*i`: the
scaled value 16 (produced by the reference input at `num_lines = 2`) renders
its row 1 as the full block `█` (`min(max(0, 16 - 8*1), 8) = 8`), while the
claim's formula `clamp(16 - 9*1, 0, 8) = 7` would select `▇`. -/
theorem C4_counterexample :
    scale_values ref_numbers 2 none none =
      Except.ok [some 5, some 1, some 6, some 1, some 8, some 16, some 3, some 10] ∧
    _render_column (some 16) 2 = Except.ok ["█", "█"] ∧
    claimed_level_pixel 16 1 = "▇" ∧ ("▇" : String) ≠ "█" := by
  refine ⟨by with_unfolding_all rfl, by with_unfolding_all rfl, by decide, by decide⟩

/-- C4 amended: for every present scaled value `v` and every `num_lines`,
the column renderer selects, for each row index `i` from 0 (bottom) to
`num_lines - 1` (top), the glyph at alphabet index `clamp(v - 8*i, 0, 8)`
(step `8`, not `9`); and the assembled block reverses row order so the first
output row is the topmost, as the two-line reference render shows. -/
theorem C4_amended_render_formula :
    (∀ (v : ℤ) (n : ℕ), _render_column (some v) n =
      Except.ok ((List.range n).map (fun i =>
        String.mk [blocks.getD (Int.toNat (clamp_level 0 8 (v - 8 * (i : ℤ)))) ' ']))) ∧
    sparklines plain_color_capability false ref_numbers 2 none none none none =
      Except.ok ["     █ ▂", "▅▁▆▁██▃█"] := by
  constructor
  · intro v n
    simp only [_render_column, clamp_level, min_comm]
  · with_unfolding_all rfl

/-- C5: in the degenerate range (`maximum == minimum`) every present sample
does scale to `4 * num_lines` (here `[5, 5]` with `num_lines = 3` gives
`[12, 12]`), but a missing sample does not stay missing: it makes scaling
raise `TypeError` at the clamp of line 87 before the degenerate branch is
even reached (and that branch, line 90, would map every position to
`4 * num_lines` regardless). -/
theorem C5_degenerate_range :
    scale_values [some 5, none, some 5] 1 none none =
      Except.error "TypeError: comparison of NoneType and number" ∧
    scale_values [some 5, some 5] 3 none none = Except.ok [some 12, some 12] := by
  refine ⟨by with_unfolding_all rfl, by with_unfolding_all rfl⟩

/-- C6: the second linear remapping does not fix its lower endpoint and does
not send the maximum bound to `num_lines * maximum`: with the reference
input at `num_lines = 2` the remap is `_rescale(1, 1, 9, 18, ·)` (lowest
computed value `m = 1`, bound `9`), which evaluates to `7/8 ≠ 1` at `1` and
to `143/8 ≠ 18` at `9`, because the source's intercept reads
`(x2*y1 - x1 - y2)` where the line through the two points needs
`(x2*y1 - x1*y2)`. -/
theorem C6_remap_endpoints :
    second_rescale 2 9 [1, 8] =
      Except.ok [_rescale 1 1 9 (2 * 9) 1, _rescale 1 1 9 (2 * 9) 8] ∧
    _rescale 1 1 9 (2 * 9) 1 = 7/8 ∧ (7/8 : ℚ) ≠ 1 ∧
    _rescale 1 1 9 (2 * 9) 9 = 143/8 ∧ (143/8 : ℚ) ≠ 2 * 9 := by
  refine ⟨by with_unfolding_all rfl, by with_unfolding_all rfl, by norm_num,
    by with_unfolding_all rfl, by norm_num⟩

/-- C8: rendering the empty sample sequence returns the one-element list
containing the empty string, for every `num_lines ≥ 1` and any capability,
emphasis rules, bounds and wrap setting. -/
theorem C8_empty_input (colored : String → Char → String) (htc : Bool)
    (num_lines : ℕ) (emph : Option (List EmphRule)) (minimum maximum : Option ℚ)
    (wrap : Option ℕ) (h : 1 ≤ num_lines) :
    sparklines colored htc [] num_lines emph minimum maximum wrap =
      Except.ok [""] := by
  unfold sparklines
  rw [if_pos h]
  rfl

/-- C8 witness: the theorem at `num_lines = 1` with a wrap width set. -/
theorem C8_empty_input_witness :
    sparklines plain_color_capability false [] 1 none none none (some 3) =
      Except.ok [""] :=
  C8_empty_input plain_color_capability false 1 none none none (some 3) (by decide)

/-- C9: when the color capability is unavailable, rendering with any
emphasis rules produces character-for-character the same output as rendering
with no emphasis rules: the color guard `HAVE_TERMCOLOR and emph` is falsy,
so no glyph is ever altered. -/
theorem C9_unavailable_color_is_noop (colored : String → Char → String)
    (numbers : List (Option ℚ)) (num_lines : ℕ) (emph : Option (List EmphRule))
    (minimum maximum : Option ℚ) (wrap : Option ℕ) :
    sparklines colored false numbers num_lines emph minimum maximum wrap =
      sparklines colored false numbers num_lines none minimum maximum wrap := rfl

/-- Position-wise reading of a successful `mapE`: the element at index `k`
of the input is sent to the element at index `k` of the output. -/
theorem mapE_ok_get {α β : Type} {f : α → Except String β} {l : List α} {l' : List β}
    (h : mapE f l = Except.ok l') (k : ℕ) (x : α) (hx : l[k]? = some x) :
    ∃ y, f x = Except.ok y ∧ l'[k]? = some y := by
  induction l generalizing l' k with
  | nil => simp at hx
  | cons a as ih =>
    rw [mapE] at h
    cases hfa : f a with
    | error e => rw [hfa] at h; exact absurd h (by simp)
    | ok y =>
      rw [hfa] at h
      cases hrest : mapE f as with
      | error e => rw [hrest] at h; exact absurd h (by simp)
      | ok ys =>
        rw [hrest] at h
        have hl : l' = y :: ys := (Except.ok.inj h).symm
        subst hl
        cases k with
        | zero =>
          rw [List.getElem?_cons_zero] at hx
          obtain rfl := Option.some.inj hx
          exact ⟨y, hfa, by simp⟩
        | succ k2 =>
          rw [List.getElem?_cons_succ] at hx
          obtain ⟨z, hz, hz2⟩ := ih hrest k2 hx
          exact ⟨z, hz, by simpa using hz2⟩

/-- The clamp of line 87 succeeds on a list with no missing sample. -/
theorem mapE_clamp_total (mn mx : ℚ) (numbers : List (Option ℚ))
    (h : ∀ x ∈ numbers, x ≠ none) :
    ∃ l, mapE (py_clamp mn mx) numbers = Except.ok l := by
  induction numbers with
  | nil => exact ⟨[], rfl⟩
  | cons a as ih =>
    obtain ⟨l, hl⟩ := ih (fun x hx => h x (List.mem_cons_of_mem _ hx))
    cases a with
    | none => exact absurd rfl (h none (List.mem_cons_self _ _))
    | some x => exact ⟨max (min x mx) mn :: l, by simp [mapE, py_clamp, hl]⟩

/-- `round_half_even` never rounds below the floor. -/
theorem round_half_even_floor_le (q : ℚ) : ⌊q⌋ ≤ round_half_even q := by
  unfold round_half_even
  split_ifs <;> omega

/-- `round_half_even` never rounds above the floor plus one. -/
theorem round_half_even_le_floor_succ (q : ℚ) : round_half_even q ≤ ⌊q⌋ + 1 := by
  unfold round_half_even
  split_ifs <;> omega

/-- Banker's rounding is monotone. -/
theorem round_half_even_mono {a b : ℚ} (h : a ≤ b) :
    round_half_even a ≤ round_half_even b := by
  have hf : ⌊a⌋ ≤ ⌊b⌋ := Int.floor_le_floor h
  rcases lt_or_eq_of_le hf with hlt | heq
  · calc round_half_even a ≤ ⌊a⌋ + 1 := round_half_even_le_floor_succ a
      _ ≤ ⌊b⌋ := by omega
      _ ≤ round_half_even b := round_half_even_floor_le b
  · unfold round_half_even
    rw [← heq]
    have hfr : a - ⌊a⌋ ≤ b - ⌊a⌋ := by linarith
    split_ifs <;> first | omega | (exfalso; linarith)

/-- `round(v) or 1` is monotone: only a rounded `0` is lifted, to `1`, and
nothing above it is ever lowered past it. -/
theorem py_round_or_1_mono {a b : ℚ} (h : a ≤ b) :
    py_round_or_1 a ≤ py_round_or_1 b := by
  have := round_half_even_mono h
  unfold py_round_or_1
  split_ifs <;> omega

/-- C7 counterexample: the scaling map is not monotone for `num_lines > 1`.
With samples `[0, 9/10]` (no explicit bounds, `num_lines = 2`) the second
remap `_rescale(1, 1, 9/10, 9/5, ·)` has slope `-8`, so the smaller sample
`0` scales to `11` while the larger sample `9/10` scales to `-45`. -/
theorem C7_counterexample :
    ((0:ℚ) ≤ 9/10) ∧
    scale_values [some 0, some (9/10)] 2 none none =
      Except.ok [some 11, some (-45)] ∧
    ¬ ((11:ℤ) ≤ -45) := by
  refine ⟨by norm_num, by with_unfolding_all rfl, by decide⟩

/-- C7 amended: for `num_lines = 1` (and any bounds) the scaling map is
monotone non-decreasing in the sample value: whenever scaling succeeds, any
two present samples `a ≤ b` receive scaled values `va ≤ vb`, and equal
samples receive equal scaled values. (For `num_lines > 1` the second
remapping can have negative slope and reverse the order, see the
counterexample.) -/
theorem C7_amended_monotone (numbers : List (Option ℚ)) (minimum maximum : Option ℚ)
    (vals : List (Option ℤ)) (i j : ℕ) (a b : ℚ)
    (hok : scale_values numbers 1 minimum maximum = Except.ok vals)
    (hi : numbers[i]? = some (some a)) (hj : numbers[j]? = some (some b))
    (hab : a ≤ b) :
    ∃ va vb : ℤ, vals[i]? = some (some va) ∧ vals[j]? = some (some vb) ∧
      va ≤ vb ∧ (a = b → va = vb) := by
  unfold scale_values at hok
  simp only [] at hok
  cases hmin : py_min_bound minimum (numbers.filterMap id) with
  | error e => rw [hmin] at hok; simp at hok
  | ok min_ =>
  rw [hmin] at hok
  simp only [] at hok
  cases hmax : py_max_bound maximum (numbers.filterMap id) with
  | error e => rw [hmax] at hok; simp at hok
  | ok max_ =>
  rw [hmax] at hok
  simp only [] at hok
  cases hcl : mapE (py_clamp min_ max_) numbers with
  | error e => rw [hcl] at hok; simp at hok
  | ok clamped =>
  rw [hcl] at hok
  simp only [] at hok
  obtain ⟨ca, hca, hcia⟩ := mapE_ok_get hcl i (some a) hi
  obtain ⟨cb, hcb, hcjb⟩ := mapE_ok_get hcl j (some b) hj
  simp only [py_clamp] at hca hcb
  obtain rfl := Except.ok.inj hca
  obtain rfl := Except.ok.inj hcb
  have hcc : max (min a max_) min_ ≤ max (min b max_) min_ :=
    max_le_max (min_le_min hab (le_refl max_)) (le_refl min_)
  by_cases hdv : max_ - min_ = 0
  · rw [if_pos hdv] at hok
    have hv : vals = clamped.map (fun _ => some ((4 * 1 : ℕ) : ℤ)) :=
      (Except.ok.inj hok).symm
    subst hv
    refine ⟨((4 * 1 : ℕ) : ℤ), ((4 * 1 : ℕ) : ℤ), ?_, ?_, le_refl _, fun _ => rfl⟩
    · rw [List.getElem?_map, hcia]; rfl
    · rw [List.getElem?_map, hcjb]; rfl
  · rw [if_neg hdv] at hok
    by_cases hdv2 : 0 < max_ - min_
    · rw [if_pos hdv2, if_neg (by norm_num : ¬ (1:ℕ) < 1)] at hok
      simp only [] at hok
      have hv : vals = (clamped.map (fun x =>
          ((blocks.length : ℚ) - 1 - 1) / (max_ - min_) * x +
            (max_ * 1 - min_ * ((blocks.length : ℚ) - 1)) / (max_ - min_))).map
          (fun v => some (py_round_or_1 v)) := (Except.ok.inj hok).symm
      subst hv
      set lin := fun x : ℚ =>
        ((blocks.length : ℚ) - 1 - 1) / (max_ - min_) * x +
          (max_ * 1 - min_ * ((blocks.length : ℚ) - 1)) / (max_ - min_) with hlin
      have hlinmono : lin (max (min a max_) min_) ≤ lin (max (min b max_) min_) := by
        simp only [hlin]
        have hs : (0:ℚ) ≤ ((blocks.length : ℚ) - 1 - 1) / (max_ - min_) := by
          apply div_nonneg _ (le_of_lt hdv2)
          norm_num [blocks]
        exact add_le_add_right (mul_le_mul_of_nonneg_left hcc hs) _
      refine ⟨py_round_or_1 (lin (max (min a max_) min_)),
        py_round_or_1 (lin (max (min b max_) min_)), ?_, ?_,
        py_round_or_1_mono hlinmono, ?_⟩
      · rw [List.getElem?_map, List.getElem?_map, hcia]; rfl
      · rw [List.getElem?_map, List.getElem?_map, hcjb]; rfl
      · intro hab2; subst hab2; rfl
    · rw [if_neg hdv2] at hok
      simp at hok

/-- C7 witness: the theorem at `[1, 2]` (which scales to `[1, 8]` at
`num_lines = 1` with default bounds), positions 0 and 1. -/
theorem C7_amended_monotone_witness :
    ∃ va vb : ℤ,
      ([some 1, some 8] : List (Option ℤ))[0]? = some (some va) ∧
      ([some 1, some 8] : List (Option ℤ))[1]? = some (some vb) ∧
      va ≤ vb ∧ ((1:ℚ) = 2 → va = vb) :=
  C7_amended_monotone [some 1, some 2] none none [some 1, some 8] 0 1 1 2
    (by with_unfolding_all rfl) (by rfl) (by rfl) (by norm_num)

/-- C10: when explicit bounds with `minimum > maximum` are supplied,
`dv = maximum - minimum` is negative, so neither branch of the range dispatch
(lines 89-107) assigns `values`, and `scale_values` fails instead of
returning a scaled sequence: it never returns a result list, and on a fully
present input it fails precisely with the `UnboundLocalError` of
`return values` (on an input with a missing sample, the clamp of line 87
still raises `TypeError` first, so scaling fails either way). -/
theorem C10_inverted_bounds_fail (numbers : List (Option ℚ)) (num_lines : ℕ)
    (mn mx : ℚ) (h : mx < mn) :
    (∀ vals, scale_values numbers num_lines (some mn) (some mx) ≠ Except.ok vals) ∧
    ((∀ x ∈ numbers, x ≠ none) →
      scale_values numbers num_lines (some mn) (some mx) =
        Except.error "UnboundLocalError: local variable 'values' referenced before assignment") := by
  have hdv0 : ¬ (mx - mn = 0) := by intro hc; linarith
  have hdv1 : ¬ (0 < mx - mn) := by linarith
  unfold scale_values
  simp only [py_min_bound, py_max_bound]
  cases hcl : mapE (py_clamp mn mx) numbers with
  | error e =>
    refine ⟨fun vals hv => by simp at hv, fun hall => ?_⟩
    obtain ⟨l, hl⟩ := mapE_clamp_total mn mx numbers hall
    rw [hl] at hcl
    exact absurd hcl (by simp)
  | ok clamped =>
    simp [hdv0, hdv1]

/-- C10 witness: the theorem at `numbers = [1]`, `minimum = 2`,
`maximum = 1`. -/
theorem C10_inverted_bounds_witness :
    scale_values [some 1] 1 (some 2) (some 1) =
      Except.error "UnboundLocalError: local variable 'values' referenced before assignment" :=
  (C10_inverted_bounds_fail [some 1] 1 2 1 (by norm_num)).2 (by decide)
